import Mathlib

/-!
Shallow embedding of `src/mc20.py`, a scheduler that repeatedly submits
"mint" posts for a list of registered agents, backs off on rate limits,
and periodically asks an external indexer to index each agent.

HTTP responses, randomness and thread-worker outcomes are modelled as
explicit parameters; side effects (file writes, HTTP requests, thread
spawns, sleeps, log lines) are modelled as event traces.  Python
truthiness of optional JSON numbers and strings is made explicit.
-/

namespace MC20

/-- `THREADS_PER_AGENT = 1  # Safe mode: Single request per agent`. -/
def THREADS_PER_AGENT : Nat := 1

/-- `AGENTS_FILE = BASE_DIR / "copy.json"` (the path's file name). -/
def AGENTS_FILE : String := "copy.json"

/-- `SUBMOLT = "mbc-20"`. -/
def SUBMOLT : String := "mbc-20"

/-- One entry of the credentials file: `agent.get("name")` and
`agent.get("api_key")`; `none` models an absent key. -/
structure AgentConfig where
  name : String
  api_key : Option String
deriving DecidableEq

/-- Python truthiness of `data.get(field)` for an optional JSON number:
absent (`None`) and `0` are falsy, every other number truthy. -/
def pyTruthyInt : Option Int → Bool
  | none => false
  | some v => v != 0

/-- Python truthiness of an optional string: `None` and `""` are falsy. -/
def pyTruthyStr : Option String → Bool
  | none => false
  | some s => !s.isEmpty

/-- The JSON body of a mint response, as `run_agent_loop` reads it:
truthiness of `data.get("success")` and `data.get("post")`, and the
optional numeric hints `retry_after_seconds` / `retry_after_minutes`. -/
structure MintBody where
  success : Bool
  post : Bool
  retry_after_seconds : Option Int
  retry_after_minutes : Option Int
deriving DecidableEq

/-- One recorded entry of `req_results`: `(r.status_code, r.json())`. -/
structure MintResponse where
  status : Nat
  body : MintBody
deriving DecidableEq

/-- Body of the `for status, data in req_results` classification loop
(lines 187-196): count successes, remember `got_429`, and overwrite
`retry_minutes` with a truthy `retry_after_minutes` hint.
The accumulator is `(success_count, retry_minutes, got_429)`. -/
def classifyFold (acc : Nat × Int × Bool) (res : MintResponse) : Nat × Int × Bool :=
  if (res.status == 200 || res.status == 201) && (res.body.success || res.body.post) then
    (acc.1 + 1, acc.2.1, acc.2.2)
  else if res.status == 429 then
    (acc.1,
     (if pyTruthyInt res.body.retry_after_minutes then
        res.body.retry_after_minutes.getD 0
      else acc.2.1),
     true)
  else acc

/-- The classification loop run over `req_results`, starting from
`success_count = 0`, `retry_minutes = 2 * 60`, `got_429 = False`. -/
def classify (results : List MintResponse) : Nat × Int × Bool :=
  results.foldl classifyFold (0, 2 * 60, false)

/-- The `retry_seconds` scan (lines 204-209): the first truthy
`retry_after_seconds` value in `req_results`, else `0`. -/
def firstRetrySeconds (results : List MintResponse) : Int :=
  match results.find? (fun res => pyTruthyInt res.body.retry_after_seconds) with
  | some res => res.body.retry_after_seconds.getD 0
  | none => 0

/-- The `sleep_time` computed at the end of one iteration of
`run_agent_loop` (lines 198-222), with `r` the `random.randint(60, 300)`
draw of the success branch. -/
def computeSleep (results : List MintResponse) (r : Int) : Int :=
  let c := classify results
  if c.1 > 0 then
    2 * 60 * 60 + r
  else if c.2.2 then
    let rs := firstRetrySeconds results
    if rs > 0 then rs + 5
    else c.2.1 * 60 + 30
  else 60

/-- The three outcomes the loop distinguishes. -/
inductive Outcome
  | success
  | rateLimited
  | unknownError
deriving DecidableEq

/-- The `if / elif status == 429 / else` chain applied to one recorded
response. -/
def classifyResponse (res : MintResponse) : Outcome :=
  if (res.status == 200 || res.status == 201) && (res.body.success || res.body.post) then
    Outcome.success
  else if res.status == 429 then
    Outcome.rateLimited
  else
    Outcome.unknownError

/-- Which of the three sleep branches an iteration takes:
`success_count > 0`, `elif got_429`, `else`. -/
def iterationOutcome (results : List MintResponse) : Outcome :=
  let c := classify results
  if c.1 > 0 then Outcome.success
  else if c.2.2 then Outcome.rateLimited
  else Outcome.unknownError

/-- The random draws one `attack_thread` consumes: the `generate_nonce()`
string, the index of the `random.choice(fluff_options)` pick, the
`random.randint(1,999)` inside the third fluff option, and the
`random.randint(60, 300)` used by the success-branch sleep. -/
structure IterRand where
  nonce : String
  fluffIdx : Nat
  fluffNum : Int
  sleepR : Int
deriving DecidableEq

/-- `mint_content = '\x7b"p":"mbc-20","op":"mint","tick":"CLAW","amt":"100"\x7d'`. -/
def MINT_CONTENT : String :=
  "\x7b\"p\":\"mbc-20\",\"op\":\"mint\",\"tick\":\"CLAW\",\"amt\":\"100\"\x7d"

/-- The `fluff_options` list; `n` is the `random.randint(1,999)` draw
interpolated into the third option. -/
def fluffOptions (n : Int) : List String :=
  ["Exploring the CLAW ecosystem today! ",
   "Another step in decentralized minting: ",
   "Agent update #" ++ toString n ++ ": ",
   "Reflecting on token utility... ",
   "To the moon with mbc20! ",
   "Claw is the law! ",
   "Building on Moltbook... "]

/-- `random.choice(fluff_options)` as a function of the drawn index. -/
def pickFluff (idx : Nat) (n : Int) : String := (fluffOptions n).getD idx ""

/-- The POST to `BASE_URL/posts` an `attack_thread` sends: the bearer key
of its headers and the JSON payload (lines 121-151). -/
structure MintRequest where
  api_key : Option String
  title : String
  content : String
  submolt : String
  is_draft : Bool
deriving DecidableEq

/-- How `attack_thread` builds its request from the agent's key and its
random draws: `title = f"Mint CLAW {nonce}"`,
`content = f"{mint_content} {random_fluff} mbc20.xyz {nonce}"`. -/
def buildMintRequest (api_key : Option String) (ir : IterRand) : MintRequest :=
  ⟨api_key,
   "Mint CLAW " ++ ir.nonce,
   MINT_CONTENT ++ " " ++ pickFluff ir.fluffIdx ir.fluffNum ++ " mbc20.xyz " ++ ir.nonce,
   SUBMOLT,
   false⟩

/-- The requests one loop iteration fires: one per spawned worker
(`for i in range(THREADS_PER_AGENT)`), built from that worker's draws. -/
def iterationRequests (api_key : Option String) (workerRand : Nat → IterRand) :
    List MintRequest :=
  (List.range THREADS_PER_AGENT).map (fun i => buildMintRequest api_key (workerRand i))

/-- The `req_results` list after every worker is joined: a worker that hit
the exception path (`none`) appends nothing, one that got a response
appends its `(status, json)` pair. -/
def iterationResults (workerOutcome : Nat → Option MintResponse) : List MintResponse :=
  ((List.range THREADS_PER_AGENT).map workerOutcome).filterMap id

/-- Models `time.sleep`, which raises `ValueError` on a negative
duration: `none` is the uncaught exception. -/
def timeSleep (secs : Int) : Option Unit :=
  if 0 ≤ secs then some () else none

/-- One full iteration of the `while True` loop of `run_agent_loop`:
compute `sleep_time` from the recorded results, then `time.sleep` it.
`some sleep_time` means the loop reaches its next iteration; `none`
means the uncaught `ValueError` killed the loop. -/
def agentIterStep (workerOutcome : Nat → Option MintResponse) (ir : IterRand) :
    Option Int :=
  let st := computeSleep (iterationResults workerOutcome) ir.sleepR
  match timeSleep st with
  | some _ => some st
  | none => none

/-- One iteration of `run_agent_loop` as a trace: the requests fired and
the computed sleep (all workers share the iteration's draws since
`THREADS_PER_AGENT = 1`). -/
def agentIterationTrace (cfg : AgentConfig) (ir : IterRand)
    (resp : Option MintResponse) : List MintRequest × Int :=
  (iterationRequests cfg.api_key (fun _ => ir),
   computeSleep (iterationResults (fun _ => resp)) ir.sleepR)

/-- The first `k` iterations of one agent's loop, as a function of that
agent's configuration, per-iteration random draws, and per-iteration
worker outcomes. -/
def agentTraceSeq (cfg : AgentConfig) (rand : Nat → IterRand)
    (resp : Nat → Option MintResponse) (k : Nat) : List (List MintRequest × Int) :=
  (List.range k).map (fun i => agentIterationTrace cfg (rand i) (resp i))

/-- The whole system's agent loops: agent `i` runs on its own
configuration, its own responses and its own draws; there is no shared
state between the loops in the source. -/
def systemTraces (n : Nat) (cfg : Nat → AgentConfig)
    (rand : Nat → Nat → IterRand) (resp : Nat → Nat → Option MintResponse)
    (k : Nat) : List (List (List MintRequest × Int)) :=
  (List.range n).map (fun i => agentTraceSeq (cfg i) (rand i) (resp i) k)

/-- Outcome of one `requests.get(f"{INDEXER_URL}/index-agent?name={name}")`
call in `recovery_loop`: a response (status, truthiness of
`data.get("success")`, and the `indexed` / `totalPosts` numbers with
their `.get(..., 0)` defaults applied), or a raised exception with its
message. -/
inductive IndexOutcome
  | response (status : Nat) (success : Bool) (indexed totalPosts : Int)
  | exn (msg : String)
deriving DecidableEq

/-- Observable events of the recovery loop. -/
inductive REvent
  | indexGet (agent_name : String)
  | logMsg (tag msg : String)
  | sleep (secs : Int)
deriving DecidableEq

/-- The body of `for agent in agents` in `recovery_loop` for one agent:
the GET, the log line chosen by the response, and the unconditional
`time.sleep(10)`. -/
def pollAgentEvents (agent_name : String) (o : IndexOutcome) : List REvent :=
  (REvent.indexGet agent_name ::
    (match o with
     | IndexOutcome.response st sc indexed totalPosts =>
        if st == 200 then
          if sc then
            [REvent.logMsg "RECOVERY"
              ("[" ++ agent_name ++ "] Sync OK. Total: " ++ toString totalPosts ++
               ", New Indexed: " ++ toString indexed)]
          else
            [REvent.logMsg "RECOVERY" ("[" ++ agent_name ++ "] Sync Failed")]
        else
          [REvent.logMsg "RECOVERY" ("[" ++ agent_name ++ "] HTTP " ++ toString st)]
     | IndexOutcome.exn msg =>
        [REvent.logMsg "RECOVERY" ("[" ++ agent_name ++ "] Error: " ++ msg)])) ++
  [REvent.sleep 10]

/-- One full cycle of `recovery_loop`'s `while True`: every agent in
list order, then the inter-cycle `time.sleep(300)`. -/
def recoveryCycle (agents : List AgentConfig) (oracle : String → IndexOutcome) :
    List REvent :=
  (agents.map (fun a => pollAgentEvents a.name (oracle a.name))).flatten ++
  [REvent.sleep 300]

/-- The GET events of a recovery trace, by agent name. -/
def pollOf : REvent → Option String
  | REvent.indexGet n => some n
  | _ => none

/-- Total seconds slept in a recovery trace. -/
def totalSleep (evs : List REvent) : Int :=
  (evs.map (fun e => match e with
    | REvent.sleep s => s
    | _ => 0)).sum

/-- The response-independent projection of a recovery trace: its GETs
and sleeps, without the log lines. -/
def pollsAndSleeps (evs : List REvent) : List REvent :=
  evs.filter (fun e => match e with
    | REvent.logMsg _ _ => false
    | _ => true)

/-- Run the `time.sleep` calls of a recovery trace: `none` if any sleep
raises (the cycle's sleeps are the constants 10 and 300). -/
def runSleeps : List REvent → Option Unit
  | [] => some ()
  | (REvent.sleep s) :: rest =>
      match timeSleep s with
      | some _ => runSleeps rest
      | none => none
  | _ :: rest => runSleeps rest

/-- One cycle of `recovery_loop` as a step: `none` would mean an uncaught
exception ended the loop, `some` that the next cycle is reached. -/
def recoveryCycleStep (agents : List AgentConfig) (oracle : String → IndexOutcome) :
    Option (List REvent) :=
  match runSleeps (recoveryCycle agents oracle) with
  | some _ => some (recoveryCycle agents oracle)
  | none => none

/-- Outcome of the one `requests.post(f"{BASE_URL}/agents/register", ...)`
call in `register_agent`: a response (status and the body's
`data.get("agent", \x7b\x7d).get("api_key")`), or a raised exception. -/
inductive RegOutcome
  | response (status : Nat) (api_key : Option String)
  | exn
deriving DecidableEq

/-- `register_agent`'s return value: the extracted `api_key` when
`r.status_code in (200, 201)`, `None` on any other status and on any
exception. -/
def register_agent (o : RegOutcome) : Option String :=
  match o with
  | RegOutcome.response st k => if st == 200 || st == 201 then k else none
  | RegOutcome.exn => none

/-- The threads `main` starts. -/
inductive ThreadKind
  | recovery
  | agentLoop (cfg : AgentConfig)
deriving DecidableEq

/-- What `json.dump` writes: a list of agent entries. -/
inductive FileContent
  | dump (agents : List AgentConfig)
deriving DecidableEq

/-- The template `main` writes when the credentials file is missing:
`[{"name": "YourAgentName", "api_key": ""}]`. -/
def templateContent : FileContent :=
  FileContent.dump [⟨"YourAgentName", some ""⟩]

/-- Observable events of `main` (and of `register_agent`, which it
calls): file writes, registration POSTs, thread spawns. -/
inductive MainEvent
  | fileWrite (path : String) (content : FileContent)
  | regRequest (agent_name : String)
  | spawn (daemon : Bool) (kind : ThreadKind)
deriving DecidableEq

/-- The requests `register_agent` fires: exactly one POST, with no retry
on any outcome. -/
def register_agent_trace (agent_name : String) : List MainEvent :=
  [MainEvent.regRequest agent_name]

/-- `if name == "name" or name == "YourAgentName"`. -/
def isPlaceholderName (n : String) : Bool :=
  n == "name" || n == "YourAgentName"

/-- `if not api_key or api_key == "key" or len(api_key) < 10`. -/
def needsRegistration (k : Option String) : Bool :=
  !pyTruthyStr k || k == some "key" || (k.getD "").length < 10

/-- Body of the registration loop of `main` (lines 244-266) for one
agent.  The accumulator is `(agents-so-far, valid_agents, updated,
events)`: placeholders are skipped; an agent needing registration fires
one registration request and joins `valid_agents` with its new key only
when that key is truthy (which also sets `updated`); other agents join
`valid_agents` unchanged.  `agents-so-far` rebuilds the `agents` list
that a later `json.dump(agents, ...)` writes, with the in-place
`agent["api_key"] = new_key` mutations applied. -/
def regStep (oracle : String → RegOutcome)
    (acc : List AgentConfig × List AgentConfig × Bool × List MainEvent)
    (agent : AgentConfig) :
    List AgentConfig × List AgentConfig × Bool × List MainEvent :=
  if isPlaceholderName agent.name then
    (acc.1 ++ [agent], acc.2.1, acc.2.2.1, acc.2.2.2)
  else if needsRegistration agent.api_key then
    if pyTruthyStr (register_agent (oracle agent.name)) then
      (acc.1 ++ [⟨agent.name, register_agent (oracle agent.name)⟩],
       acc.2.1 ++ [⟨agent.name, register_agent (oracle agent.name)⟩],
       true,
       acc.2.2.2 ++ register_agent_trace agent.name)
    else
      (acc.1 ++ [agent], acc.2.1, acc.2.2.1,
       acc.2.2.2 ++ register_agent_trace agent.name)
  else
    (acc.1 ++ [agent], acc.2.1 ++ [agent], acc.2.2.1, acc.2.2.2)

/-- The whole registration phase, starting from an empty `valid_agents`
and `updated = False`. -/
def registrationPhase (agents : List AgentConfig) (oracle : String → RegOutcome) :
    List AgentConfig × List AgentConfig × Bool × List MainEvent :=
  agents.foldl (regStep oracle) ([], [], false, [])

/-- `main` as an event trace, parameterised by whether `AGENTS_FILE`
exists, its parsed contents, and the registration outcomes.  Missing
file: write the template and return.  Otherwise: run the registration
phase, dump the (possibly updated) agents back when `updated`, and —
when `valid_agents` is non-empty — start the daemon recovery thread and
one daemon agent-loop thread per valid agent. -/
def mainTrace (fileExists : Bool) (agents : List AgentConfig)
    (oracle : String → RegOutcome) : List MainEvent :=
  if !fileExists then
    [MainEvent.fileWrite AGENTS_FILE templateContent]
  else
    let ph := registrationPhase agents oracle
    ph.2.2.2 ++
    (if ph.2.2.1 then
       [MainEvent.fileWrite AGENTS_FILE (FileContent.dump ph.1)]
     else []) ++
    (if ph.2.1.isEmpty then []
     else
       MainEvent.spawn true ThreadKind.recovery ::
       ph.2.1.map (fun a => MainEvent.spawn true (ThreadKind.agentLoop a)))

/-- Is the event a thread spawn? -/
def isSpawn : MainEvent → Bool
  | MainEvent.spawn _ _ => true
  | _ => false

/-- Is the event a file write? -/
def isFileWrite : MainEvent → Bool
  | MainEvent.fileWrite _ _ => true
  | _ => false

/-! ## Helper lemmas -/

/-- Closed form of the sleep computation for an iteration that recorded a
single response: the success sleep, the 429 branches (positive seconds
hint, then truthy minutes hint, then the 120-minute default), and the
unknown-error fallback. -/
theorem computeSleep_singleton (res : MintResponse) (r : Int) :
    computeSleep [res] r =
      if (res.status == 200 || res.status == 201) && (res.body.success || res.body.post) then
        7200 + r
      else if res.status == 429 then
        if 0 < res.body.retry_after_seconds.getD 0 then
          res.body.retry_after_seconds.getD 0 + 5
        else
          (if pyTruthyInt res.body.retry_after_minutes then
             res.body.retry_after_minutes.getD 0
           else 120) * 60 + 30
      else 60 := by
  obtain ⟨st, su, po, ras, ram⟩ := res
  simp only [computeSleep, classify, classifyFold, firstRetrySeconds,
    List.foldl_cons, List.foldl_nil, List.find?_cons, List.find?_nil]
  by_cases h1 : (st == 200 || st == 201) && (su || po)
  · simp [h1]
  · by_cases h2 : st == 429
    · cases ras with
      | none => simp [h1, h2, pyTruthyInt]
      | some s =>
        by_cases hs : s = 0
        · simp [h1, h2, pyTruthyInt, hs]
        · have hbne : (s != 0) = true := by simpa using hs
          by_cases hsp : 0 < s
          · simp [h1, h2, pyTruthyInt, hbne, hsp]
          · simp [h1, h2, pyTruthyInt, hbne, hsp]
    · simp [h1, h2]

/-- Every branch of the per-agent poll body of `recovery_loop` emits the
GET, one log line, and the 10-second sleep, in that order. -/
theorem pollAgentEvents_shape (n : String) (o : IndexOutcome) :
    ∃ msg, pollAgentEvents n o =
      [REvent.indexGet n, REvent.logMsg "RECOVERY" msg, REvent.sleep 10] := by
  cases o with
  | response st sc indexed totalPosts =>
    by_cases h1 : (st == 200) = true
    · cases sc with
      | true =>
        exact ⟨"[" ++ n ++ "] Sync OK. Total: " ++ toString totalPosts ++
          ", New Indexed: " ++ toString indexed, by simp [pollAgentEvents, h1]⟩
      | false =>
        exact ⟨"[" ++ n ++ "] Sync Failed", by simp [pollAgentEvents, h1]⟩
    · exact ⟨"[" ++ n ++ "] HTTP " ++ toString st, by simp [pollAgentEvents, h1]⟩
  | exn msg => exact ⟨"[" ++ n ++ "] Error: " ++ msg, by simp [pollAgentEvents]⟩

/-- A recovery cycle decomposes agent by agent. -/
theorem recoveryCycle_cons (a : AgentConfig) (rest : List AgentConfig)
    (oracle : String → IndexOutcome) :
    recoveryCycle (a :: rest) oracle =
      pollAgentEvents a.name (oracle a.name) ++ recoveryCycle rest oracle := by
  simp [recoveryCycle, List.append_assoc]

/-- Slept time adds over concatenated traces. -/
theorem totalSleep_append (xs ys : List REvent) :
    totalSleep (xs ++ ys) = totalSleep xs + totalSleep ys := by
  simp [totalSleep]

/-- One registration-loop step either leaves the event list unchanged or
appends the single registration POST of that agent. -/
theorem regStep_events (oracle : String → RegOutcome)
    (acc : List AgentConfig × List AgentConfig × Bool × List MainEvent)
    (agent : AgentConfig) :
    (regStep oracle acc agent).2.2.2 = acc.2.2.2 ∨
    (regStep oracle acc agent).2.2.2 =
      acc.2.2.2 ++ [MainEvent.regRequest agent.name] := by
  simp only [regStep, register_agent_trace]
  split_ifs <;> simp

/-- Every event the registration loop adds is a registration POST. -/
theorem foldl_regStep_events_mem (agents : List AgentConfig)
    (oracle : String → RegOutcome)
    (acc : List AgentConfig × List AgentConfig × Bool × List MainEvent) :
    ∀ e ∈ (agents.foldl (regStep oracle) acc).2.2.2,
      e ∈ acc.2.2.2 ∨ ∃ m, e = MainEvent.regRequest m := by
  induction agents generalizing acc with
  | nil => intro e he; exact Or.inl he
  | cons a rest ih =>
    intro e he
    rcases ih (regStep oracle acc a) e he with h | h
    · rcases regStep_events oracle acc a with hs | hs
      · rw [hs] at h; exact Or.inl h
      · rw [hs] at h
        rcases List.mem_append.mp h with h2 | h2
        · exact Or.inl h2
        · exact Or.inr ⟨a.name, by simpa using h2⟩
    · exact Or.inr h

/-- The registration phase spawns no thread and writes no file: its
events are registration POSTs only. -/
theorem regPhase_events_reg (agents : List AgentConfig)
    (oracle : String → RegOutcome) :
    ∀ e ∈ (registrationPhase agents oracle).2.2.2,
      isSpawn e = false ∧ isFileWrite e = false := by
  intro e he
  rcases foldl_regStep_events_mem agents oracle ([], [], false, []) e he with h | ⟨m, hm⟩
  · simp at h
  · subst hm; exact ⟨rfl, rfl⟩

/-- One registration-loop step sets `updated` exactly when this agent is
no placeholder, needed registration, and got a truthy new key. -/
theorem regStep_updated (oracle : String → RegOutcome)
    (acc : List AgentConfig × List AgentConfig × Bool × List MainEvent)
    (agent : AgentConfig) :
    (regStep oracle acc agent).2.2.1 =
      (acc.2.2.1 || (!isPlaceholderName agent.name &&
        (needsRegistration agent.api_key &&
         pyTruthyStr (register_agent (oracle agent.name))))) := by
  simp only [regStep]
  split_ifs <;> simp [*]

/-- `updated` after the whole registration loop: some agent received a
truthy new key. -/
theorem foldl_regStep_updated (agents : List AgentConfig)
    (oracle : String → RegOutcome)
    (acc : List AgentConfig × List AgentConfig × Bool × List MainEvent) :
    (agents.foldl (regStep oracle) acc).2.2.1 =
      (acc.2.2.1 || agents.any (fun a =>
        !isPlaceholderName a.name && (needsRegistration a.api_key &&
        pyTruthyStr (register_agent (oracle a.name))))) := by
  induction agents generalizing acc with
  | nil => simp
  | cons a rest ih =>
    rw [List.foldl_cons, ih, regStep_updated]
    simp [List.any_cons, Bool.or_assoc]

/-- A trace whose sleep durations are all non-negative runs its
`time.sleep` calls without raising. -/
theorem runSleeps_eq_some (evs : List REvent)
    (h : ∀ s, REvent.sleep s ∈ evs → 0 ≤ s) : runSleeps evs = some () := by
  induction evs with
  | nil => rfl
  | cons e rest ih =>
    cases e with
    | sleep s =>
      have hs : 0 ≤ s := h s (List.mem_cons_self _ _)
      simp only [runSleeps, timeSleep, if_pos hs]
      exact ih (fun s2 hm => h s2 (List.mem_cons_of_mem _ hm))
    | indexGet n =>
      simp only [runSleeps]
      exact ih (fun s2 hm => h s2 (List.mem_cons_of_mem _ hm))
    | logMsg t m =>
      simp only [runSleeps]
      exact ih (fun s2 hm => h s2 (List.mem_cons_of_mem _ hm))

/-- A recovery cycle only ever sleeps the constants 10 and 300. -/
theorem recoveryCycle_sleeps (agents : List AgentConfig)
    (oracle : String → IndexOutcome) :
    ∀ s, REvent.sleep s ∈ recoveryCycle agents oracle → s = 10 ∨ s = 300 := by
  induction agents with
  | nil =>
    intro s hs
    simp [recoveryCycle] at hs
    exact Or.inr hs
  | cons a rest ih =>
    intro s hs
    rw [recoveryCycle_cons] at hs
    rcases List.mem_append.mp hs with h | h
    · obtain ⟨msg, hm⟩ := pollAgentEvents_shape a.name (oracle a.name)
      rw [hm] at h
      simp at h
      exact Or.inl h
    · exact ih s h

/-! ## Claim theorems -/

/-- C1: for a single-response attempt of `run_agent_loop`, the computed
sleep is 7200 + r on success (r the randint(60, 300) draw); s + 5 on a
429 whose body has a truthy `retry_after_seconds` s > 0; 60 * m + 30 on
a 429 with no such seconds hint but a truthy `retry_after_minutes` m;
7230 on a 429 with neither hint; and 60 in the unknown-error case
(including the no-response case). -/
theorem C1_single_attempt_sleep (res : MintResponse) (r : Int) :
    ((res.status = 200 ∨ res.status = 201) →
      (res.body.success = true ∨ res.body.post = true) →
      60 ≤ r → r ≤ 300 → computeSleep [res] r = 7200 + r) ∧
    (∀ s : Int, res.status = 429 → res.body.retry_after_seconds = some s → 0 < s →
      computeSleep [res] r = s + 5) ∧
    (∀ m : Int, res.status = 429 → ¬ 0 < res.body.retry_after_seconds.getD 0 →
      res.body.retry_after_minutes = some m → m ≠ 0 →
      computeSleep [res] r = 60 * m + 30) ∧
    (res.status = 429 → ¬ 0 < res.body.retry_after_seconds.getD 0 →
      pyTruthyInt res.body.retry_after_minutes = false →
      computeSleep [res] r = 7230) ∧
    (¬ ((res.status = 200 ∨ res.status = 201) ∧
        (res.body.success = true ∨ res.body.post = true)) →
      res.status ≠ 429 → computeSleep [res] r = 60) ∧
    computeSleep [] r = 60 := by
  refine ⟨?_, ?_, ?_, ?_, ?_, rfl⟩
  · intro hst hbody _ _
    have h1 : ((res.status == 200 || res.status == 201) &&
        (res.body.success || res.body.post)) = true := by
      simp only [Bool.and_eq_true, Bool.or_eq_true, beq_iff_eq]
      exact ⟨hst, hbody⟩
    rw [computeSleep_singleton, if_pos h1]
  · intro s hst hs hsp
    rw [computeSleep_singleton]
    rw [hst, hs]
    simp [hsp]
  · intro m hst hrs hm hm0
    rw [computeSleep_singleton, hst]
    simp only [hm, pyTruthyInt]
    have : (m != 0) = true := by simpa using hm0
    simp [hrs, this]
    ring
  · intro hst hrs hmf
    rw [computeSleep_singleton, hst]
    simp [hrs, hmf]
  · intro hns hst
    have h2 : (res.status == 429) = false := by simpa using hst
    cases hb : ((res.status == 200 || res.status == 201) &&
        (res.body.success || res.body.post)) with
    | true =>
      exfalso
      simp only [Bool.and_eq_true, Bool.or_eq_true, beq_iff_eq] at hb
      exact hns hb
    | false =>
      rw [computeSleep_singleton, hb, h2]
      simp

/-- C2: each recorded response is classified into exactly one of three
outcomes: success iff status 200/201 with a truthy `success` or `post`
field, rate-limited iff status 429, otherwise unknown-error; the
iteration-level branch agrees with the per-response classification, and
an iteration with no recorded result (the request raised) takes the
unknown-error branch. -/
theorem C2_response_classification (res : MintResponse) :
    (classifyResponse res = Outcome.success ↔
      ((res.status = 200 ∨ res.status = 201) ∧
       (res.body.success = true ∨ res.body.post = true))) ∧
    (classifyResponse res = Outcome.rateLimited ↔ res.status = 429) ∧
    (classifyResponse res = Outcome.unknownError ↔
      (¬ ((res.status = 200 ∨ res.status = 201) ∧
          (res.body.success = true ∨ res.body.post = true)) ∧ res.status ≠ 429)) ∧
    iterationOutcome [res] = classifyResponse res ∧
    iterationOutcome [] = Outcome.unknownError := by
  obtain ⟨st, body⟩ := res
  have hiff : (((st == 200 || st == 201) && (body.success || body.post)) = true) ↔
      ((st = 200 ∨ st = 201) ∧ (body.success = true ∨ body.post = true)) := by
    simp [Bool.and_eq_true, Bool.or_eq_true, beq_iff_eq]
  have hiter : iterationOutcome [MintResponse.mk st body] =
      classifyResponse (MintResponse.mk st body) := by
    simp only [iterationOutcome, classify, classifyFold, List.foldl_cons,
      List.foldl_nil, classifyResponse]
    by_cases h1 : ((st == 200 || st == 201) && (body.success || body.post)) = true
    · simp [h1]
    · by_cases h2 : (st == 429) = true
      · simp [h1, h2]
      · simp [h1, h2]
  by_cases h1 : ((st == 200 || st == 201) && (body.success || body.post)) = true
  · have hp := hiff.mp h1
    refine ⟨?_, ?_, ?_, hiter, rfl⟩
    · simpa [classifyResponse, h1] using hp
    · simp only [classifyResponse, if_pos h1]
      constructor
      · intro hc; exact absurd hc (by simp)
      · intro h429; exfalso; rcases hp.1 with h | h <;> omega
    · simp only [classifyResponse, if_pos h1]
      constructor
      · intro hc; exact absurd hc (by simp)
      · intro hc; exact absurd hp hc.1
  · by_cases h2 : (st == 429) = true
    · have h429 : st = 429 := by simpa using h2
      refine ⟨?_, ?_, ?_, hiter, rfl⟩
      · simp only [classifyResponse, if_neg h1, if_pos h2]
        constructor
        · intro hc; exact absurd hc (by simp)
        · intro hp; exact absurd (hiff.mpr hp) h1
      · simp [classifyResponse, h1, h2, h429]
      · simp only [classifyResponse, if_neg h1, if_pos h2]
        constructor
        · intro hc; exact absurd hc (by simp)
        · intro hc; exact absurd h429 hc.2
    · have h429 : st ≠ 429 := fun hc => h2 (by simp [hc])
      refine ⟨?_, ?_, ?_, hiter, rfl⟩
      · simp only [classifyResponse, if_neg h1, if_neg h2]
        constructor
        · intro hc; exact absurd hc (by simp)
        · intro hp; exact absurd (hiff.mpr hp) h1
      · simp [classifyResponse, h1, h2, h429]
      · simp only [classifyResponse, if_neg h1, if_neg h2]
        exact ⟨fun _ => ⟨fun hp => h1 (hiff.mpr hp), h429⟩, fun _ => by trivial⟩

/-- C3: each iteration of `run_agent_loop` spawns `THREADS_PER_AGENT = 1`
worker, fires exactly one mint POST, and records at most one result. -/
theorem C3_one_request_per_iteration :
    THREADS_PER_AGENT = 1 ∧
    (∀ (api_key : Option String) (wr : Nat → IterRand),
      (iterationRequests api_key wr).length = THREADS_PER_AGENT) ∧
    (∀ w : Nat → Option MintResponse, (iterationResults w).length ≤ 1) := by
  refine ⟨rfl, fun key wr => by simp [iterationRequests], fun w => ?_⟩
  have : List.range THREADS_PER_AGENT = [0] := rfl
  simp only [iterationResults, this, List.map_cons, List.map_nil]
  cases w 0 <;> simp

/-- C4: a full cycle of `recovery_loop` over a non-empty agent list
issues exactly one index request per agent in list order, sleeps a fixed
10 * n + 300 seconds in total, and its polls and sleeps do not depend on
the responses received. -/
theorem C4_recovery_cadence (agents : List AgentConfig)
    (oracle : String → IndexOutcome) (hne : agents ≠ []) :
    (recoveryCycle agents oracle).filterMap pollOf = agents.map AgentConfig.name ∧
    totalSleep (recoveryCycle agents oracle) = 10 * agents.length + 300 ∧
    (∀ oracle2, pollsAndSleeps (recoveryCycle agents oracle) =
      pollsAndSleeps (recoveryCycle agents oracle2)) := by
  clear hne
  induction agents with
  | nil =>
    refine ⟨rfl, by simp [recoveryCycle, totalSleep], fun oracle2 => rfl⟩
  | cons a rest ih =>
    obtain ⟨msg, hm⟩ := pollAgentEvents_shape a.name (oracle a.name)
    refine ⟨?_, ?_, ?_⟩
    · rw [recoveryCycle_cons, List.filterMap_append, hm, ih.1]
      simp [pollOf]
    · rw [recoveryCycle_cons, totalSleep_append, hm, ih.2.1]
      simp [totalSleep]
      ring
    · intro oracle2
      obtain ⟨msg2, hm2⟩ := pollAgentEvents_shape a.name (oracle2 a.name)
      rw [recoveryCycle_cons, recoveryCycle_cons]
      simp only [pollsAndSleeps, List.filter_append] at ih ⊢
      rw [hm, hm2, ih.2.2 oracle2]
      simp [pollsAndSleeps]

/-- C4 witness: the cadence theorem at a concrete one-agent list. -/
theorem C4_recovery_cadence_witness :
    (recoveryCycle [⟨"a", none⟩] (fun _ => IndexOutcome.exn "e")).filterMap
      pollOf = ["a"] ∧
    totalSleep (recoveryCycle [⟨"a", none⟩] (fun _ => IndexOutcome.exn "e")) =
      310 := by
  have h := C4_recovery_cadence [⟨"a", none⟩] (fun _ => IndexOutcome.exn "e")
    (by simp)
  exact ⟨h.1, h.2.1⟩

/-- C5: with the credentials file present and a non-empty valid-agent
list, `main` starts exactly one daemon recovery thread followed by one
daemon agent-loop thread per valid agent, and no other thread. -/
theorem C5_thread_startup (agents : List AgentConfig)
    (oracle : String → RegOutcome)
    (hne : (registrationPhase agents oracle).2.1 ≠ []) :
    (mainTrace true agents oracle).filter isSpawn =
      MainEvent.spawn true ThreadKind.recovery ::
      (registrationPhase agents oracle).2.1.map
        (fun a => MainEvent.spawn true (ThreadKind.agentLoop a)) := by
  have hemp : (registrationPhase agents oracle).2.1.isEmpty = false := by
    simpa [List.isEmpty_iff] using hne
  simp only [mainTrace, Bool.not_true, Bool.false_eq_true, if_false, hemp]
  rw [List.filter_append, List.filter_append]
  have he : (registrationPhase agents oracle).2.2.2.filter isSpawn = [] := by
    rw [List.filter_eq_nil_iff]
    intro e he
    simp [(regPhase_events_reg agents oracle e he).1]
  have hw : (if (registrationPhase agents oracle).2.2.1 then
      [MainEvent.fileWrite AGENTS_FILE
        (FileContent.dump (registrationPhase agents oracle).1)]
    else ([] : List MainEvent)).filter isSpawn = [] := by
    split_ifs <;> simp [isSpawn]
  have hs : (MainEvent.spawn true ThreadKind.recovery ::
      (registrationPhase agents oracle).2.1.map
        (fun a => MainEvent.spawn true (ThreadKind.agentLoop a))).filter isSpawn =
      MainEvent.spawn true ThreadKind.recovery ::
      (registrationPhase agents oracle).2.1.map
        (fun a => MainEvent.spawn true (ThreadKind.agentLoop a)) := by
    rw [List.filter_eq_self]
    intro e he
    rcases List.mem_cons.mp he with h2 | h2
    · subst h2; rfl
    · obtain ⟨a, ha, rfl⟩ := List.mem_map.mp h2
      rfl
  rw [he, hw, hs]
  simp

/-- C5 witness: the startup theorem at a concrete one-agent file whose
agent already has a valid key. -/
theorem C5_thread_startup_witness :
    (mainTrace true [⟨"alice", some "k123456789012"⟩]
      (fun _ => RegOutcome.exn)).filter isSpawn =
      [MainEvent.spawn true ThreadKind.recovery,
       MainEvent.spawn true
         (ThreadKind.agentLoop ⟨"alice", some "k123456789012"⟩)] := by
  have h := C5_thread_startup [⟨"alice", some "k123456789012"⟩]
    (fun _ => RegOutcome.exn) (by decide)
  exact h

/-- C6 counterexample: `run_agent_loop` can halt.  On a 429 response whose
body carries `retry_after_minutes = -1`, the computed sleep is
`(-1) * 60 + 30 = -30`, and `time.sleep(-30)` raises an uncaught
`ValueError` that ends the loop thread, so the loop does reach a halt
state. -/
theorem C6_counterexample_negative_retry :
    agentIterStep
      (fun _ => some ⟨429, ⟨false, false, none, some (-1)⟩⟩)
      ⟨"", 0, 0, 0⟩ = none := by
  rfl

/-- C6 (amended): `recovery_loop` never halts — every sleep it performs
is a fixed non-negative constant — and `run_agent_loop` always reaches
its next iteration whenever the computed sleep is non-negative; a
negative computed sleep, the only halt source, occurs only for a 429
response carrying a negative `retry_after_minutes` hint. -/
theorem C6_amended_loop_progress (agents : List AgentConfig)
    (oracle : String → IndexOutcome) (w : Nat → Option MintResponse)
    (ir : IterRand) :
    (recoveryCycleStep agents oracle).isSome = true ∧
    (0 ≤ computeSleep (iterationResults w) ir.sleepR →
      agentIterStep w ir = some (computeSleep (iterationResults w) ir.sleepR)) ∧
    (∀ res r, 0 ≤ r → computeSleep [res] r < 0 →
      res.status = 429 ∧
      ∃ m, res.body.retry_after_minutes = some m ∧ m < 0) := by
  refine ⟨?_, ?_, ?_⟩
  · have hrs : runSleeps (recoveryCycle agents oracle) = some () :=
      runSleeps_eq_some _ (fun s hm => by
        rcases recoveryCycle_sleeps agents oracle s hm with h | h <;> omega)
    simp [recoveryCycleStep, hrs]
  · intro h
    simp [agentIterStep, timeSleep, h]
  · intro res r hr hneg
    rw [computeSleep_singleton] at hneg
    by_cases h1 : ((res.status == 200 || res.status == 201) &&
        (res.body.success || res.body.post)) = true
    · rw [if_pos h1] at hneg; omega
    · rw [if_neg h1] at hneg
      by_cases h2 : (res.status == 429) = true
      · rw [if_pos h2] at hneg
        refine ⟨by simpa using h2, ?_⟩
        by_cases h3 : 0 < res.body.retry_after_seconds.getD 0
        · rw [if_pos h3] at hneg; omega
        · rw [if_neg h3] at hneg
          cases hm : res.body.retry_after_minutes with
          | none =>
            rw [hm] at hneg
            simp [pyTruthyInt] at hneg
          | some m =>
            rw [hm] at hneg
            by_cases h4 : m = 0
            · subst h4
              simp [pyTruthyInt] at hneg
            · have ht : pyTruthyInt (some m) = true := by
                simp [pyTruthyInt, h4]
              rw [ht] at hneg
              simp at hneg
              exact ⟨m, rfl, by omega⟩
      · rw [if_neg h2] at hneg; omega

/-- C7: no coordination between agents: the trace of agent i (requests
and sleeps over any number of iterations) is a function of agent i's own
configuration, random draws, and responses only — two system runs that
agree on those for agent i give agent i identical behaviour, whatever
the other agents' configurations, draws or responses. -/
theorem C7_no_coordination (n : Nat) (cfg1 cfg2 : Nat → AgentConfig)
    (rand1 rand2 : Nat → Nat → IterRand)
    (resp1 resp2 : Nat → Nat → Option MintResponse) (k i : Nat)
    (hi : i < n) (hcfg : cfg1 i = cfg2 i) (hrand : rand1 i = rand2 i)
    (hresp : resp1 i = resp2 i) :
    (systemTraces n cfg1 rand1 resp1 k)[i]? =
      (systemTraces n cfg2 rand2 resp2 k)[i]? := by
  simp [systemTraces, List.getElem?_map, List.getElem?_range, hi, hcfg,
    hrand, hresp]

/-- C7 witness: two concrete two-agent systems that differ in agent 1's
configuration but agree on agent 0 produce the same trace for agent 0. -/
theorem C7_no_coordination_witness :
    (systemTraces 2
      (fun j => if j = 0 then ⟨"a", some "k1"⟩ else ⟨"b", some "k2"⟩)
      (fun _ _ => ⟨"n", 0, 1, 60⟩) (fun _ _ => none) 1)[0]? =
    (systemTraces 2
      (fun j => if j = 0 then ⟨"a", some "k1"⟩ else ⟨"c", some "k3"⟩)
      (fun _ _ => ⟨"n", 0, 1, 60⟩) (fun _ _ => none) 1)[0]? :=
  C7_no_coordination 2
    (fun j => if j = 0 then ⟨"a", some "k1"⟩ else ⟨"b", some "k2"⟩)
    (fun j => if j = 0 then ⟨"a", some "k1"⟩ else ⟨"c", some "k3"⟩)
    (fun _ _ => ⟨"n", 0, 1, 60⟩) (fun _ _ => ⟨"n", 0, 1, 60⟩)
    (fun _ _ => none) (fun _ _ => none) 1 0
    (by decide) rfl rfl rfl

/-- C8: `register_agent` fires exactly one registration POST (never
retried), returns the body's extracted `api_key` on status 200/201, and
returns `None` on every other status and whenever the request raised. -/
theorem C8_register_agent_one_shot (o : RegOutcome) (n : String) :
    (register_agent_trace n).length = 1 ∧
    (∀ st k, o = RegOutcome.response st k → (st = 200 ∨ st = 201) →
      register_agent o = k) ∧
    (∀ st k, o = RegOutcome.response st k → st ≠ 200 → st ≠ 201 →
      register_agent o = none) ∧
    (o = RegOutcome.exn → register_agent o = none) := by
  refine ⟨rfl, ?_, ?_, ?_⟩
  · intro st k ho hst
    subst ho
    rcases hst with h | h <;> simp [register_agent, h]
  · intro st k ho h200 h201
    subst ho
    simp [register_agent, h200, h201]
  · intro ho; subst ho; rfl

/-- C9: the only path `main` ever writes is `AGENTS_FILE`, and it writes
exactly twice over: the placeholder template when the file is missing,
and the dump of the (mutated) agents list when `updated` is set — which
happens exactly when some agent received a truthy new API key during the
registration phase. -/
theorem C9_writes_only_agents_file (fe : Bool) (agents : List AgentConfig)
    (oracle : String → RegOutcome) :
    ((mainTrace fe agents oracle).filter isFileWrite =
      (if fe then
        (if (registrationPhase agents oracle).2.2.1 then
          [MainEvent.fileWrite AGENTS_FILE
            (FileContent.dump (registrationPhase agents oracle).1)]
         else [])
       else [MainEvent.fileWrite AGENTS_FILE templateContent])) ∧
    (∀ p c, MainEvent.fileWrite p c ∈ mainTrace fe agents oracle →
      p = AGENTS_FILE) ∧
    ((registrationPhase agents oracle).2.2.1 = agents.any (fun a =>
      !isPlaceholderName a.name && (needsRegistration a.api_key &&
      pyTruthyStr (register_agent (oracle a.name))))) := by
  have hupd : (registrationPhase agents oracle).2.2.1 = agents.any (fun a =>
      !isPlaceholderName a.name && (needsRegistration a.api_key &&
      pyTruthyStr (register_agent (oracle a.name)))) := by
    rw [registrationPhase, foldl_regStep_updated]
    simp
  cases fe with
  | false =>
    refine ⟨by simp [mainTrace, isFileWrite], ?_, hupd⟩
    intro p c hmem
    simp only [mainTrace, Bool.not_false, if_pos] at hmem
    rcases List.mem_singleton.mp hmem with h
    injection h
  | true =>
    have he : (registrationPhase agents oracle).2.2.2.filter isFileWrite = [] := by
      rw [List.filter_eq_nil_iff]
      intro e he
      simp [(regPhase_events_reg agents oracle e he).2]
    have hs : (if (registrationPhase agents oracle).2.1.isEmpty then
        ([] : List MainEvent)
      else MainEvent.spawn true ThreadKind.recovery ::
        (registrationPhase agents oracle).2.1.map
          (fun a => MainEvent.spawn true (ThreadKind.agentLoop a))).filter
        isFileWrite = [] := by
      split_ifs
      · rfl
      · rw [List.filter_eq_nil_iff]
        intro e hmem
        rcases List.mem_cons.mp hmem with h2 | h2
        · subst h2; simp [isFileWrite]
        · obtain ⟨a, ha, rfl⟩ := List.mem_map.mp h2
          simp [isFileWrite]
    have hw : (if (registrationPhase agents oracle).2.2.1 then
        [MainEvent.fileWrite AGENTS_FILE
          (FileContent.dump (registrationPhase agents oracle).1)]
      else ([] : List MainEvent)).filter isFileWrite =
        (if (registrationPhase agents oracle).2.2.1 then
          [MainEvent.fileWrite AGENTS_FILE
            (FileContent.dump (registrationPhase agents oracle).1)]
         else []) := by
      split_ifs <;> simp [isFileWrite]
    refine ⟨?_, ?_, hupd⟩
    · simp only [mainTrace, Bool.not_true, Bool.false_eq_true, if_false]
      rw [List.filter_append, List.filter_append, he, hw, hs]
      simp
    · intro p c hmem
      simp only [mainTrace, Bool.not_true, Bool.false_eq_true, if_false] at hmem
      rcases List.mem_append.mp hmem with h1 | h1
      rcases List.mem_append.mp h1 with h2 | h2
      · have hfw := (regPhase_events_reg agents oracle _ h2).2
        simp [isFileWrite] at hfw
      · revert h2
        split_ifs
        · intro h2
          rcases List.mem_singleton.mp h2 with h
          injection h
        · intro h2; exact absurd h2 (List.not_mem_nil _)
      · revert h1
        split_ifs
        · intro h1; exact absurd h1 (List.not_mem_nil _)
        · intro h1
          rcases List.mem_cons.mp h1 with h2 | h2
          · exact absurd h2 (by simp)
          · obtain ⟨a, ha, hx⟩ := List.mem_map.mp h2
            exact absurd hx (by simp)

/-- C10: when the credentials file does not exist, `main` writes only the
single-entry placeholder template to `AGENTS_FILE` and returns: no
registration request, no thread spawn, no loop. -/
theorem C10_missing_file_template (agents : List AgentConfig)
    (oracle : String → RegOutcome) :
    mainTrace false agents oracle =
      [MainEvent.fileWrite AGENTS_FILE templateContent] ∧
    templateContent = FileContent.dump [⟨"YourAgentName", some ""⟩] :=
  ⟨rfl, rfl⟩

end MC20
